import Mathlib

/-!
Shallow embedding of the tuigreet UI compositing core:
src/ui/mod.rs (frame driver, status/title composer, mode router) and
src/ui/command.rs (Command-mode panel renderer).

Machine integers: the source works on Rust `u16` values. We embed them as
`Nat` with explicit wrap-around (`% 65536`) on every arithmetic operation,
matching Rust release-profile (two's-complement wrapping) semantics; the
`as u16` casts are embedded as truncation `% 65536`.
-/

namespace Tuigreet

/-- Wrapping embed of a Rust `as u16` cast (truncation modulo 2^16). -/
def u16 (n : Nat) : Nat := n % 65536

/-- Rust `u16` addition, wrapping modulo 2^16. -/
def add16 (a b : Nat) : Nat := (a + b) % 65536

/-- Rust `u16` subtraction, wrapping modulo 2^16
(for `a b < 65536` this is exactly `u16::wrapping_sub`). -/
def sub16 (a b : Nat) : Nat := (a % 65536 + (65536 - b % 65536)) % 65536

/-- Rust `u16` multiplication, wrapping modulo 2^16. -/
def mul16 (a b : Nat) : Nat := (a * b) % 65536

/-- ratatui `Rect` in terminal cells (`x`, `y`, `width`, `height` are `u16`). -/
structure Rect where
  x : Nat
  y : Nat
  width : Nat
  height : Nat
deriving DecidableEq, Repr

def Rect.zero : Rect := ⟨0, 0, 0, 0⟩

/-- ratatui layout direction. -/
inductive Direction where
  | horizontal
  | vertical
deriving DecidableEq, Repr

/-- ratatui sizing constraint (the variants used by this repository plus the
percentage variant named by the spec). -/
inductive Constraint where
  | length : Nat → Constraint
  | min : Nat → Constraint
  | percentage : Nat → Constraint
deriving DecidableEq, Repr

/-- Reserved base size of a constraint (fixed and minimum sizes reserved first). -/
def Constraint.base : Constraint → Nat
  | .length n => n
  | .min n => n
  | .percentage _ => 0

/-- Whether a constraint may absorb a share of the remaining space. -/
def Constraint.isExpandable : Constraint → Bool
  | .length _ => false
  | .min _ => true
  | .percentage _ => true

/-- Share of the remaining space a constraint receives (`k` is the number of
expandable entries). -/
def Constraint.extra (remaining k : Nat) : Constraint → Nat
  | .length _ => 0
  | .min _ => remaining / k
  | .percentage p => remaining * p / 100

/-- Index of the last expandable entry of a constraint list, if any. -/
def lastExpandableIdx : List Constraint → Option Nat
  | [] => none
  | c :: cs =>
    match lastExpandableIdx cs with
    | some i => some (i + 1)
    | none => if c.isExpandable then some 0 else none

/-- Modelled from the spec: resolution of a constraint sequence to sizes along
one axis (ratatui's `Layout` solver is an external dependency whose source is
not part of this repository). Per spec section 4.1: fixed and minimum sizes are
reserved first; the remaining extent (floored at 0) is divided among the
expandable (minimum/percentage) entries, percentages receiving
`remaining * p / 100` rounded down; leftover cells from rounding are appended
to the last expandable entry so that the sub-rects exactly tile the container
whenever it is large enough. -/
def resolveSizes (extent : Nat) (cs : List Constraint) : List Nat :=
  let bases := cs.map Constraint.base
  let remaining := extent - bases.sum
  let k := (cs.filter Constraint.isExpandable).length
  if k = 0 then bases
  else
    let extras := cs.map (Constraint.extra remaining k)
    let sizes := List.zipWith (fun a b => a + b) bases extras
    let leftover := remaining - extras.sum
    match lastExpandableIdx cs with
    | some i => sizes.set i (sizes.getD i 0 + leftover)
    | none => sizes

/-- Lay the resolved sizes out as adjacent rectangles starting at `pos`. -/
def stackRects (dir : Direction) (container : Rect) : Nat → List Nat → List Rect
  | _, [] => []
  | pos, s :: ss =>
    match dir with
    | .vertical => Rect.mk container.x pos container.width s :: stackRects dir container (pos + s) ss
    | .horizontal => Rect.mk pos container.y s container.height :: stackRects dir container (pos + s) ss

/-- Modelled from the spec: ratatui `Layout::default().constraints(..).split(..)`
(external dependency). Splits `container` along `dir` into one sub-rect per
constraint, via `resolveSizes`. -/
def layoutSplit (container : Rect) (dir : Direction) (cs : List Constraint) : List Rect :=
  let extent := match dir with | .vertical => container.height | .horizontal => container.width
  let start := match dir with | .vertical => container.y | .horizontal => container.x
  stackRects dir container start (resolveSizes extent cs)

/-- A styled text span (`ratatui::text::Span`): the text plus the two style
modifiers this core uses (REVERSED for status labels, BOLD for prompt values). -/
structure Span where
  text : String
  reversed : Bool
  bold : Bool
deriving DecidableEq, Repr

/-- Paragraph alignment. -/
inductive Alignment where
  | left
  | center
  | right
deriving DecidableEq, Repr

/-- A rendered widget: its spans, alignment and target area. -/
structure Widget where
  spans : List Span
  align : Alignment
  area : Rect
deriving DecidableEq, Repr

/-- Which slot of the frame a widget was rendered into, mirroring the named
chunk indices of src/ui/mod.rs (TITLEBAR_INDEX, STATUSBAR_LEFT_INDEX,
STATUSBAR_RIGHT_INDEX) and the mode-specific panel. -/
inductive Target where
  | titlebar
  | statusLeft
  | statusRight
  | panel
deriving DecidableEq, Repr

/-- Modelled from the spec: the closed `Mode` enum of section 3 (its Rust
declaration lives outside src/); the source's catch-all `_` match arm routes
every remaining mode to the Prompt renderer, represented here by `prompt`. -/
inductive Mode where
  | command
  | sessions
  | power
  | users
  | processing
  | prompt
deriving DecidableEq, Repr

/-- A panel renderer failure (`Box<dyn Error>` in the source), kept abstract
as its message. -/
abbrev RenderError : Type := String

/-- The application-state snapshot observed during one redraw
(`Greeter` of the source, locked for the whole redraw). Configuration
accessors of the source (`width()`, `window_padding()`, `container_padding()`,
`config().opt_present("time")`) and the localization lookups `fl!(..)` are
embedded as snapshot fields, since their Rust definitions live outside src/;
each `msg_*` field is the opaque localized string the corresponding `fl!`
lookup returns. -/
structure Greeter where
  mode : Mode
  width : Nat
  height : Nat
  window_padding : Nat
  container_padding : Nat
  command : Option String
  new_command : String
  time_enabled : Bool
  caps_lock : Bool
  hide_cursor_flag : Bool
  msg_new_command : String
  msg_title_command : String
  msg_action_reset : String
  msg_action_command : String
  msg_action_session : String
  msg_action_power : String
  msg_status_command : String
  msg_status_caps : String
deriving DecidableEq, Repr

/-- Modelled from the spec: `should_hide_cursor` (src/ui/util.rs, absent from
src/) — "hidden whenever the state holder's mode/flags indicate the active
field should not expose a caret"; abstracted as a snapshot flag. -/
def should_hide_cursor (greeter : Greeter) : Bool := greeter.hide_cursor_flag

/-- Modelled from the spec: `capslock_status` (src/info.rs, absent from src/) —
the Caps Lock boolean read from the host environment, "treated as a pure
read"; abstracted as a snapshot field. -/
def capslock_status (greeter : Greeter) : Bool := greeter.caps_lock

/-- Modelled from the spec: `get_height` (src/ui/util.rs, absent from src/) —
the configured content height consumed by the Command panel. -/
def get_height (greeter : Greeter) : Nat := greeter.height

/-- Modelled from the spec: `get_cursor_offset` (src/ui/util.rs, absent from
src/) — per spec section 4.4 step 6 the caret sits at end-of-input, so the
offset is the displayed-character count passed in by the caller. -/
def get_cursor_offset (_greeter : Greeter) (length : Nat) : Nat := length

/-- Modelled from the spec: `get_input_width` (src/ui/util.rs, absent from
src/) — the input value is "clipped/width-limited to the remaining row width"
after the label and its one-column offset. -/
def get_input_width (greeter : Greeter) (label : Option String) : Nat :=
  sub16 greeter.width (add16 (u16 (label.getD "").length) 1)

/-- First letter of a word capitalized. -/
def capitalizeWord (w : String) : String :=
  match w.data with
  | [] => w
  | c :: cs => String.mk (c.toUpper :: cs)

/-- Modelled from the spec: `titleize` (src/ui/util.rs, absent from src/) —
"text transformed to capitalize the first letter of each word". -/
def titleize (message : String) : String :=
  String.intercalate " " ((message.splitOn " ").map capitalizeWord)

/-- Embedding of `status_label` from src/ui/mod.rs: a REVERSED-styled span. -/
def status_label (text : String) : Span := ⟨text, true, false⟩

/-- Embedding of `status_value` from src/ui/mod.rs: a titleized plain span. -/
def status_value (text : String) : Span := ⟨titleize text, false, false⟩

/-- Embedding of `prompt_value` from src/ui/mod.rs: a BOLD span for a present value, an empty
plain span otherwise. -/
def prompt_value (text : Option String) : Span :=
  match text with
  | some t => ⟨t, false, true⟩
  | none => ⟨"", false, false⟩

/-- Everything `command::draw` (src/ui/command.rs) computes during one call:
the centered container, the padded inner frame, the field rows produced by the
vertical split, the widgets it renders, and the returned logical cursor
coordinate. -/
structure CommandRender where
  container : Rect
  frame : Rect
  rows : List Rect
  widgets : List Widget
  cursorPos : Nat × Nat
deriving DecidableEq, Repr

/-- Embedding of `command::draw` (src/ui/command.rs lines 15-53), following the
source line by line. `fl!("new_command").len()` is the UTF-8 byte length of the
label (Rust `str::len`), embedded as `String.utf8ByteSize`;
`new_command.chars().count()` is the character count, embedded as
`String.length`; the `as u16` casts are `u16` truncations. -/
def commandRender (greeter : Greeter) (size : Rect) : CommandRender :=
  let width := greeter.width
  let height := get_height greeter
  let container_padding := greeter.container_padding
  let x := sub16 size.width width / 2
  let y := sub16 size.height height / 2
  let container := Rect.mk x y width height
  let frame := Rect.mk (add16 x container_padding) (add16 y container_padding)
    (sub16 width container_padding) (sub16 height container_padding)
  let blockWidget := Widget.mk [⟨titleize greeter.msg_title_command, false, false⟩] Alignment.left container
  let chunks := layoutSplit frame Direction.vertical [Constraint.length 1]
  let cursor := chunks.getD 0 Rect.zero
  let labelWidget := Widget.mk [prompt_value (some greeter.msg_new_command)] Alignment.left cursor
  let valueWidget := Widget.mk [⟨greeter.new_command, false, false⟩] Alignment.left
    (Rect.mk (add16 (add16 1 cursor.x) (u16 greeter.msg_new_command.utf8ByteSize)) cursor.y
      (get_input_width greeter (some greeter.msg_new_command)) 1)
  let offset := get_cursor_offset greeter greeter.new_command.length
  CommandRender.mk container frame chunks [blockWidget, labelWidget, valueWidget]
    (add16 (add16 (add16 2 cursor.x) (u16 greeter.msg_new_command.utf8ByteSize)) (u16 offset),
     add16 cursor.y 1)

/-- The value `command::draw` returns: the source has a single exit,
`Ok((..))` at line 52, so the result is always `Except.ok` of the computed
cursor coordinate. -/
def commandDraw (greeter : Greeter) (size : Rect) : Except RenderError (Nat × Nat) :=
  Except.ok (commandRender greeter size).cursorPos

/-- The renderer result the mode router observes for the active mode
(src/ui/mod.rs lines 115-121): the concrete `commandDraw` for Command mode,
and the abstract external renderer result `others m` for every other mode
(the Sessions/Power/Users/Processing/Prompt renderers are external
collaborators; `others` maps each mode to the result of its renderer). -/
def selectedResult (greeter : Greeter) (size : Rect)
    (others : Mode → Except RenderError (Nat × Nat)) : Except RenderError (Nat × Nat) :=
  match greeter.mode with
  | .command => commandDraw greeter size
  | m => others m

/-- The optional logical cursor collected by the router: each match arm of
src/ui/mod.rs lines 115-122 calls its renderer and applies `.ok()`. -/
def routeCursor (greeter : Greeter) (size : Rect)
    (others : Mode → Except RenderError (Nat × Nat)) : Option (Nat × Nat) :=
  match greeter.mode with
  | .command => (commandDraw greeter size).toOption
  | m => (others m).toOption

/-- The widgets the active panel renderer draws: concrete for Command mode;
the internal layouts of the other renderers are external collaborators, so
their widget effects are out of scope (empty here). -/
def panelWidgets (greeter : Greeter) (size : Rect) : List (Target × Widget) :=
  match greeter.mode with
  | .command => (commandRender greeter size).widgets.map (fun wdg => (Target.panel, wdg))
  | _ => []

/-- The rectangles the active panel renderer computes (container, inner frame,
field rows), recorded for the determinism claim. -/
def panelRectsOf (greeter : Greeter) (size : Rect) : List Rect :=
  match greeter.mode with
  | .command =>
    let cr := commandRender greeter size
    cr.container :: cr.frame :: cr.rows
  | _ => []

/-- The five-row outer vertical layout of src/ui/mod.rs lines 56-67. -/
def outerConstraints (window_padding : Nat) : List Constraint :=
  [Constraint.length window_padding, Constraint.length 1, Constraint.min 1,
   Constraint.length 1, Constraint.length window_padding]

/-- Embedding of `status_block_size` from src/ui/mod.rs line 76:
`(size.width - (2 * greeter.window_padding())) / 2` in `u16` arithmetic. -/
def statusBlockSize (width window_padding : Nat) : Nat :=
  sub16 width (mul16 2 window_padding) / 2

/-- The horizontal status-row constraints of src/ui/mod.rs lines 78-89. -/
def statusConstraints (window_padding block : Nat) : List Constraint :=
  [Constraint.length window_padding, Constraint.length block,
   Constraint.length block, Constraint.length window_padding]

/-- Everything one redraw produces: the outer chunk layout, the status-row
split, the rendered widgets in order, the surface handed to the panel
renderer, the panel's rectangles, the logical cursor collected from the
router, and the final 0-indexed terminal cursor instruction (`none` meaning
the cursor stays hidden). -/
structure FrameOutput where
  outerChunks : List Rect
  statusChunks : List Rect
  widgets : List (Target × Widget)
  panelSurface : Rect
  panelRects : List Rect
  cursorLogical : Option (Nat × Nat)
  cursorInstr : Option (Nat × Nat)
deriving DecidableEq, Repr

/-- Embedding of the frame driver `draw` (src/ui/mod.rs lines 44-134).
`size` is `f.size()` (the whole terminal area); `timeText` is the formatted
clock string `get_time` produces (an external read of the wall clock);
`others` gives the results of the external panel renderers. The panel
renderer is invoked with the frame itself and reads `f.size()`, so
`panelSurface` is the full terminal surface. The cursor instruction mirrors
lines 47-52 and 124-128: suppressed when `should_hide_cursor` holds, else
`set_cursor(col - 1, row - 1)` on the collected coordinate. -/
def drawFrame (greeter : Greeter) (size : Rect) (timeText : String)
    (others : Mode → Except RenderError (Nat × Nat)) : FrameOutput :=
  let hide := should_hide_cursor greeter
  let chunks := layoutSplit size Direction.vertical (outerConstraints greeter.window_padding)
  let timeWidgets :=
    if greeter.time_enabled then
      [(Target.titlebar, Widget.mk [⟨timeText, false, false⟩] Alignment.center (chunks.getD 1 Rect.zero))]
    else []
  let block := statusBlockSize size.width greeter.window_padding
  let statusChunks := layoutSplit (chunks.getD 3 Rect.zero) Direction.horizontal
    (statusConstraints greeter.window_padding block)
  let commandStr := greeter.command.getD "-"
  let statusLeftWidget :=
    (Target.statusLeft, Widget.mk
      [status_label "ESC", status_value greeter.msg_action_reset,
       status_label "F2", status_value greeter.msg_action_command,
       status_label "F3", status_value greeter.msg_action_session,
       status_label "F12", status_value greeter.msg_action_power,
       status_label greeter.msg_status_command, status_value commandStr]
      Alignment.left (statusChunks.getD 1 Rect.zero))
  let capsWidgets :=
    if capslock_status greeter then
      [(Target.statusRight, Widget.mk [status_label greeter.msg_status_caps]
        Alignment.right (statusChunks.getD 2 Rect.zero))]
    else []
  let cursor := routeCursor greeter size others
  let instr := if hide then none else cursor.map (fun p => (sub16 p.1 1, sub16 p.2 1))
  { outerChunks := chunks
    statusChunks := statusChunks
    widgets := timeWidgets ++ [statusLeftWidget] ++ capsWidgets ++ panelWidgets greeter size
    panelSurface := size
    panelRects := panelRectsOf greeter size
    cursorLogical := cursor
    cursorInstr := instr }

/-- The full rectangle trace of one redraw, for the determinism claim. -/
def rectTrace (out : FrameOutput) : List Rect :=
  out.outerChunks ++ out.statusChunks ++ out.panelRects

/-- Two successive redraws from the same snapshot and surface. -/
def redrawTwice (greeter : Greeter) (size : Rect) (timeText : String)
    (others : Mode → Except RenderError (Nat × Nat)) : FrameOutput × FrameOutput :=
  (drawFrame greeter size timeText others, drawFrame greeter size timeText others)

/-- A representative snapshot: Command mode with the spec's concrete scenario
parameters (window padding 1, container padding 1, configured content width 40
and height 3, label "New command: " of 13 displayed characters, input "ls"). -/
def sampleGreeter : Greeter :=
  { mode := Mode.command, width := 40, height := 3, window_padding := 1, container_padding := 1,
    command := none, new_command := "ls", time_enabled := true, caps_lock := true,
    hide_cursor_flag := false,
    msg_new_command := "New command: ", msg_title_command := "Change command",
    msg_action_reset := "reset", msg_action_command := "change command",
    msg_action_session := "choose session", msg_action_power := "power",
    msg_status_command := "COMMAND", msg_status_caps := "CAPS LOCK" }

/-- The 80x24 surface of the spec's concrete scenario. -/
def sampleSurface : Rect := Rect.mk 0 0 80 24

/-- External renderers that all fail, exercising the router's error path. -/
def errRenderers : Mode → Except RenderError (Nat × Nat) := fun _ => Except.error "render failure"

/-- Claim C1, code evaluated at the failing input: in the spec's concrete
scenario (80x24, paddings 1, label "New command: ", input "ls") the returned
cursor is (row.x + 17, row.y + 1) = (38, 12) as claimed, because that label is
ASCII; but the column is computed from the label's UTF-8 byte length
(`fl!("new_command").len()`), not its displayed character count: with the
one-displayed-character label "é" (2 bytes) and an empty input the code
returns column 2 + row.x + 2 = 25, whereas the claimed formula
2 + row.x + label character count + 0 gives 24. -/
theorem c1_cursor_label_byte_length :
    (commandRender sampleGreeter sampleSurface).rows.getD 0 Rect.zero = Rect.mk 21 11 39 1 ∧
    (commandRender sampleGreeter sampleSurface).cursorPos = (21 + 17, 11 + 1) ∧
    (commandRender { sampleGreeter with msg_new_command := "é", new_command := "" }
        sampleSurface).cursorPos = (2 + 21 + 2 + 0, 12) ∧
    String.utf8ByteSize "é" = 2 ∧
    String.length "é" = 1 ∧
    2 + 21 + String.length "é" + 0 = 24 ∧
    24 < 2 + 21 + String.utf8ByteSize "é" + 0 := by
  decide

/-- Claim C2, code evaluated at the failing input: on a 10x5 surface with a
configured container width of 40, `command::draw` computes
`(size.width - width) / 2` in `u16` arithmetic; 10 - 40 wraps to 65506 (a
debug build panics right at this subtraction), so the container rectangle is
placed at x = 32753 and extends far outside the 10-cell-wide surface. No
GeometryError value exists anywhere on this path: the out-of-range rectangle
is handed straight to the widget renderer, which indexes the terminal buffer
out of bounds. -/
theorem c2_small_surface_wraps :
    sub16 10 40 = 65506 ∧
    (commandRender sampleGreeter (Rect.mk 0 0 10 5)).container = Rect.mk 32753 1 40 3 ∧
    10 < 32753 + 40 := by
  decide

/-- Computation of the five-row outer split on a full-terminal surface: when
the terminal is at least `2 * p + 3` rows tall the rows are the top padding,
the time row, the expanding main area, the status row and the bottom padding. -/
theorem outer_split (w h p : Nat) (hh : 2 * p + 3 ≤ h) :
    layoutSplit (Rect.mk 0 0 w h) Direction.vertical (outerConstraints p) =
      [Rect.mk 0 0 w p, Rect.mk 0 p w 1, Rect.mk 0 (p + 1) w (h - (2 * p + 2)),
       Rect.mk 0 (h - p - 1) w 1, Rect.mk 0 (h - p) w p] := by
  simp [layoutSplit, outerConstraints, resolveSizes, stackRects, lastExpandableIdx,
    Constraint.base, Constraint.isExpandable, Constraint.extra, Rect.mk.injEq]
  omega

/-- Computation of the status-row split: the four fixed-length constraints
resolve to their requested widths laid out left to right. -/
theorem status_split (row : Rect) (p b : Nat) :
    layoutSplit row Direction.horizontal (statusConstraints p b) =
      [Rect.mk row.x row.y p row.height, Rect.mk (row.x + p) row.y b row.height,
       Rect.mk (row.x + p + b) row.y b row.height,
       Rect.mk (row.x + p + b + b) row.y p row.height] := by
  simp [layoutSplit, statusConstraints, resolveSizes, stackRects,
    Constraint.base, Constraint.isExpandable, Rect.mk.injEq]

/-- Claim C3, counterexample: on an 80x5 terminal with window padding 1 the
main-area row is `Rect 0 2 80 1`, but the panel renderer is handed the whole
frame and reads `f.size()`, the full 80x5 surface; its container is centered
at y = 1, above the main-area row — so the active panel renderer does not use
the main-area row as its drawing surface. -/
theorem c3_panel_surface_counterexample :
    (drawFrame sampleGreeter (Rect.mk 0 0 80 5) "" errRenderers).panelSurface = Rect.mk 0 0 80 5 ∧
    (drawFrame sampleGreeter (Rect.mk 0 0 80 5) "" errRenderers).outerChunks.getD 2 Rect.zero =
      Rect.mk 0 2 80 1 ∧
    ((drawFrame sampleGreeter (Rect.mk 0 0 80 5) "" errRenderers).panelSurface ==
      (drawFrame sampleGreeter (Rect.mk 0 0 80 5) "" errRenderers).outerChunks.getD 2 Rect.zero)
      = false ∧
    ((drawFrame sampleGreeter (Rect.mk 0 0 80 5) "" errRenderers).panelRects.getD 0 Rect.zero).y
      = 1 := by
  decide

/-- Claim C3 as amended: during one redraw the frame driver splits the
terminal vertically into exactly five rows — top padding, time row (height 1),
main area (minimum 1, absorbing the remainder), status row (height 1), bottom
padding — but the active panel renderer is invoked with the whole frame and
draws using the full terminal surface, not the main-area row. -/
theorem c3_five_rows_full_surface (g : Greeter) (w h : Nat) (timeText : String)
    (others : Mode → Except RenderError (Nat × Nat))
    (hh : 2 * g.window_padding + 3 ≤ h) :
    (drawFrame g (Rect.mk 0 0 w h) timeText others).outerChunks =
      [Rect.mk 0 0 w g.window_padding, Rect.mk 0 g.window_padding w 1,
       Rect.mk 0 (g.window_padding + 1) w (h - (2 * g.window_padding + 2)),
       Rect.mk 0 (h - g.window_padding - 1) w 1,
       Rect.mk 0 (h - g.window_padding) w g.window_padding] ∧
    (drawFrame g (Rect.mk 0 0 w h) timeText others).panelSurface = Rect.mk 0 0 w h := by
  refine ⟨?_, rfl⟩
  show layoutSplit (Rect.mk 0 0 w h) Direction.vertical (outerConstraints g.window_padding) = _
  exact outer_split w h g.window_padding hh

/-- Witness for claim C3's amended theorem at the 80x24 scenario. -/
theorem c3_five_rows_full_surface_witness :
    2 * sampleGreeter.window_padding + 3 ≤ 24 ∧
    ((drawFrame sampleGreeter (Rect.mk 0 0 80 24) "" errRenderers).outerChunks =
      [Rect.mk 0 0 80 1, Rect.mk 0 1 80 1, Rect.mk 0 2 80 20,
       Rect.mk 0 22 80 1, Rect.mk 0 23 80 1] ∧
     (drawFrame sampleGreeter (Rect.mk 0 0 80 24) "" errRenderers).panelSurface =
       Rect.mk 0 0 80 24) :=
  ⟨by decide, c3_five_rows_full_surface sampleGreeter 80 24 "" errRenderers (by decide)⟩

/-- Claim C4: if the visibility-suppression condition holds the terminal
cursor is never requested visible, regardless of the panel renderer's result;
otherwise a 1-indexed coordinate (c, r) collected from the active renderer is
set at exactly (c - 1, r - 1). -/
theorem c4_cursor_suppression_and_adjustment (g : Greeter) (size : Rect) (timeText : String)
    (others : Mode → Except RenderError (Nat × Nat)) (c r : Nat) :
    (should_hide_cursor g = true → (drawFrame g size timeText others).cursorInstr = none) ∧
    (should_hide_cursor g = false →
      (drawFrame g size timeText others).cursorLogical = some (c, r) →
      1 ≤ c → c ≤ 65535 → 1 ≤ r → r ≤ 65535 →
      (drawFrame g size timeText others).cursorInstr = some (c - 1, r - 1)) := by
  constructor
  · intro hhide
    simp [drawFrame, hhide]
  · intro hhide hcur hc1 hc2 hr1 hr2
    have hlog : routeCursor g size others = some (c, r) := hcur
    simp [drawFrame, hhide, hlog, sub16]
    omega

/-- Witness for claim C4: a suppressed redraw hides the cursor, and an
unsuppressed Command-mode redraw at the 80x24 scenario places the terminal
cursor at (37, 11) from the logical coordinate (38, 12). -/
theorem c4_cursor_suppression_witness :
    (drawFrame { sampleGreeter with hide_cursor_flag := true } sampleSurface "" errRenderers).cursorInstr
      = none ∧
    should_hide_cursor sampleGreeter = false ∧
    (drawFrame sampleGreeter sampleSurface "" errRenderers).cursorLogical = some (38, 12) ∧
    (drawFrame sampleGreeter sampleSurface "" errRenderers).cursorInstr = some (38 - 1, 12 - 1) :=
  ⟨(c4_cursor_suppression_and_adjustment { sampleGreeter with hide_cursor_flag := true }
      sampleSurface "" errRenderers 38 12).1 rfl,
   rfl, by decide,
   (c4_cursor_suppression_and_adjustment sampleGreeter sampleSurface "" errRenderers 38 12).2
     rfl (by decide) (by decide) (by decide) (by decide) (by decide)⟩

/-- Relation between the router's collected cursor and the selected renderer's
result: each match arm applies `.ok()` to exactly the renderer the mode
selects. -/
theorem routeCursor_eq_selected (g : Greeter) (size : Rect)
    (others : Mode → Except RenderError (Nat × Nat)) :
    routeCursor g size others = (selectedResult g size others).toOption := by
  cases hm : g.mode <;> simp [routeCursor, selectedResult, hm]

/-- Claim C5: the redraw depends on the external renderer results only at the
active mode (exactly one renderer is selected and invoked), a renderer error
is swallowed and mapped to "no cursor" rather than propagated, and the status
widgets are rendered regardless. -/
theorem c5_router_error_swallowed (g : Greeter) (size : Rect) (timeText : String)
    (o o' : Mode → Except RenderError (Nat × Nat)) (e : RenderError) :
    (o g.mode = o' g.mode → drawFrame g size timeText o = drawFrame g size timeText o') ∧
    (selectedResult g size o = Except.error e →
      (drawFrame g size timeText o).cursorLogical = none ∧
      (drawFrame g size timeText o).cursorInstr = none) ∧
    (drawFrame g size timeText o).widgets.any (fun wdg => wdg.1 == Target.statusLeft) = true := by
  refine ⟨?_, ?_, ?_⟩
  · intro h
    have hr : routeCursor g size o = routeCursor g size o' := by
      cases hm : g.mode <;> rw [hm] at h <;> simp [routeCursor, hm, h]
    simp [drawFrame, hr]
  · intro he
    have hl : routeCursor g size o = none := by
      rw [routeCursor_eq_selected, he]
      rfl
    constructor
    · exact hl
    · simp [drawFrame, hl]
  · simp [drawFrame, List.any_append]

/-- Witness for claim C5 at Sessions mode with a failing external renderer. -/
theorem c5_router_error_swallowed_witness :
    selectedResult { sampleGreeter with mode := Mode.sessions } sampleSurface errRenderers =
      Except.error "render failure" ∧
    (drawFrame { sampleGreeter with mode := Mode.sessions } sampleSurface "" errRenderers).cursorLogical
      = none ∧
    (drawFrame { sampleGreeter with mode := Mode.sessions } sampleSurface "" errRenderers).cursorInstr
      = none ∧
    (drawFrame { sampleGreeter with mode := Mode.sessions } sampleSurface "" errRenderers).widgets.any
      (fun wdg => wdg.1 == Target.statusLeft) = true :=
  ⟨rfl,
   ((c5_router_error_swallowed { sampleGreeter with mode := Mode.sessions } sampleSurface ""
      errRenderers errRenderers "render failure").2.1 rfl).1,
   ((c5_router_error_swallowed { sampleGreeter with mode := Mode.sessions } sampleSurface ""
      errRenderers errRenderers "render failure").2.1 rfl).2,
   (c5_router_error_swallowed { sampleGreeter with mode := Mode.sessions } sampleSurface ""
      errRenderers errRenderers "render failure").2.2⟩

/-- Claim C6: the status row is split into [pad, half, half, pad] with
half = (width - 2*pad) / 2, and 2*pad + 2*half never exceeds the surface
width, for every u16 terminal width of at least 2*pad. -/
theorem c6_status_block_bound (g : Greeter) (w h : Nat) (timeText : String)
    (others : Mode → Except RenderError (Nat × Nat))
    (hp : 2 * g.window_padding ≤ w) (hw : w ≤ 65535) :
    statusBlockSize w g.window_padding = (w - 2 * g.window_padding) / 2 ∧
    2 * g.window_padding + 2 * statusBlockSize w g.window_padding ≤ w ∧
    (drawFrame g (Rect.mk 0 0 w h) timeText others).statusChunks.map Rect.width =
      [g.window_padding, statusBlockSize w g.window_padding,
       statusBlockSize w g.window_padding, g.window_padding] := by
  have hinner : sub16 w (mul16 2 g.window_padding) = w - 2 * g.window_padding := by
    simp [sub16, mul16]
    omega
  have hb : statusBlockSize w g.window_padding = (w - 2 * g.window_padding) / 2 := by
    show sub16 w (mul16 2 g.window_padding) / 2 = _
    rw [hinner]
  refine ⟨hb, ?_, ?_⟩
  · rw [hb]
    omega
  · show (layoutSplit ((layoutSplit (Rect.mk 0 0 w h) Direction.vertical
        (outerConstraints g.window_padding)).getD 3 Rect.zero) Direction.horizontal
        (statusConstraints g.window_padding (statusBlockSize w g.window_padding))).map Rect.width = _
    rw [status_split]
    simp

/-- Witness for claim C6 at width 80 with window padding 1. -/
theorem c6_status_block_bound_witness :
    2 * sampleGreeter.window_padding ≤ 80 ∧ 80 ≤ 65535 ∧
    (statusBlockSize 80 sampleGreeter.window_padding
        = (80 - 2 * sampleGreeter.window_padding) / 2 ∧
      2 * sampleGreeter.window_padding + 2 * statusBlockSize 80 sampleGreeter.window_padding ≤ 80 ∧
      (drawFrame sampleGreeter (Rect.mk 0 0 80 24) "" errRenderers).statusChunks.map Rect.width =
        [sampleGreeter.window_padding, statusBlockSize 80 sampleGreeter.window_padding,
         statusBlockSize 80 sampleGreeter.window_padding, sampleGreeter.window_padding]) :=
  ⟨by decide, by decide,
   c6_status_block_bound sampleGreeter 80 24 "" errRenderers (by decide) (by decide)⟩

/-- The part of the Command-mode cursor column that does not depend on the
input value: 2 plus the field row's x plus the label's truncated UTF-8 byte
length, accumulated with wrapping u16 additions as at src/ui/command.rs
line 52. -/
def commandColBase (g : Greeter) (size : Rect) : Nat :=
  add16 (add16 2 ((commandRender g size).rows.getD 0 Rect.zero).x)
    (u16 g.msg_new_command.utf8ByteSize)

/-- Changing only the input value leaves the geometry fixed, and the returned
cursor column is the base plus the truncated displayed-character count of the
input value. -/
theorem commandRender_col (g : Greeter) (size : Rect) (s : String) :
    (commandRender { g with new_command := s } size).cursorPos.1 =
      add16 (commandColBase g size) (u16 s.length) := rfl

/-- An input value of 65536 'a' characters. -/
def bigCommand : String := String.mk (List.replicate 65536 'a')

/-- Displayed-character count of `bigCommand`. -/
theorem bigCommand_length : bigCommand.length = 65536 := by
  show (List.replicate 65536 'a').length = 65536
  rw [List.length_replicate]

/-- Claim C7, counterexample: with the fixed label "New command: " and the
fixed row origin of the 80x24 scenario, growing the input value from 1
displayed character (column 37) to 65536 displayed characters yields column
36 — the `as u16` cast truncates the character count, so the cursor column is
not monotonically non-decreasing in the displayed-character count. -/
theorem c7_cursor_column_wraps :
    ({ sampleGreeter with new_command := "a" } : Greeter).new_command.length = 1 ∧
    ({ sampleGreeter with new_command := bigCommand } : Greeter).new_command.length = 65536 ∧
    (commandRender { sampleGreeter with new_command := "a" } sampleSurface).cursorPos.1 = 37 ∧
    (commandRender { sampleGreeter with new_command := bigCommand } sampleSurface).cursorPos.1
      = 36 ∧
    36 < 37 := by
  refine ⟨by decide, bigCommand_length, by decide, ?_, by decide⟩
  rw [commandRender_col, bigCommand_length]
  decide

/-- Claim C7 as amended: for a fixed label and fixed row origin the
Command-mode cursor column is monotonically non-decreasing in the
displayed-character count of the input value, provided the base column plus
the larger count still fits in a u16 (the source truncates the count and sums
with wrapping 16-bit arithmetic). -/
theorem c7_cursor_column_monotone (g : Greeter) (size : Rect) (s₁ s₂ : String)
    (hlen : s₁.length ≤ s₂.length)
    (hfit : commandColBase g size + s₂.length ≤ 65535) :
    (commandRender { g with new_command := s₁ } size).cursorPos.1 ≤
      (commandRender { g with new_command := s₂ } size).cursorPos.1 := by
  rw [commandRender_col, commandRender_col]
  have hbase : commandColBase g size < 65536 := Nat.mod_lt _ (by norm_num)
  simp only [add16, u16]
  omega

/-- Witness for claim C7's amended theorem: input "a" against input "ls". -/
theorem c7_cursor_column_monotone_witness :
    String.length "a" ≤ String.length "ls" ∧
    commandColBase sampleGreeter sampleSurface + String.length "ls" ≤ 65535 ∧
    (commandRender { sampleGreeter with new_command := "a" } sampleSurface).cursorPos.1 ≤
      (commandRender { sampleGreeter with new_command := "ls" } sampleSurface).cursorPos.1 :=
  ⟨by decide, by decide,
   c7_cursor_column_monotone sampleGreeter sampleSurface "a" "ls" (by decide) (by decide)⟩

/-- Claim C8: a redraw is a deterministic pure function of the snapshot and
surface: two successive redraws from an unchanged snapshot produce identical
outputs, and the rectangle trace and both cursor coordinates are moreover
independent of the clock text — there is no hidden mutable layout cache. -/
theorem c8_redraw_deterministic (g : Greeter) (size : Rect) (t t' : String)
    (others : Mode → Except RenderError (Nat × Nat)) :
    (redrawTwice g size t others).1 = (redrawTwice g size t others).2 ∧
    rectTrace (drawFrame g size t others) = rectTrace (drawFrame g size t' others) ∧
    (drawFrame g size t others).cursorLogical = (drawFrame g size t' others).cursorLogical ∧
    (drawFrame g size t others).cursorInstr = (drawFrame g size t' others).cursorInstr :=
  ⟨rfl, rfl, rfl, rfl⟩

theorem titlebar_beq_statusRight : (Target.titlebar == Target.statusRight) = false := rfl

theorem statusLeft_beq_statusRight : (Target.statusLeft == Target.statusRight) = false := rfl

theorem panel_beq_statusRight : (Target.panel == Target.statusRight) = false := rfl

/-- Panel widgets are never rendered into the status-right slot. -/
theorem filter_statusRight_map_panel (ws : List Widget) :
    (ws.map (fun wdg => (Target.panel, wdg))).filter
      (fun wdg => wdg.1 == Target.statusRight) = [] := by
  induction ws with
  | nil => rfl
  | cons w ws ih => simp [panel_beq_statusRight, ih]

/-- Claim C9: nothing is rendered into the right status half when Caps Lock
is inactive; when it is active, exactly one reverse-styled label is rendered
there, right-aligned within the right status half. -/
theorem c9_caps_lock_right_half (g : Greeter) (size : Rect) (timeText : String)
    (others : Mode → Except RenderError (Nat × Nat)) :
    (capslock_status g = false →
      (drawFrame g size timeText others).widgets.filter
        (fun wdg => wdg.1 == Target.statusRight) = []) ∧
    (capslock_status g = true →
      (drawFrame g size timeText others).widgets.filter
        (fun wdg => wdg.1 == Target.statusRight) =
        [(Target.statusRight, Widget.mk [status_label g.msg_status_caps] Alignment.right
          ((drawFrame g size timeText others).statusChunks.getD 2 Rect.zero))]) := by
  constructor
  · intro hcaps
    cases ht : g.time_enabled <;>
      cases hm : g.mode <;>
        simp [drawFrame, panelWidgets, hcaps, ht, hm, List.filter_append,
          filter_statusRight_map_panel, titlebar_beq_statusRight, statusLeft_beq_statusRight]
  · intro hcaps
    cases ht : g.time_enabled <;>
      cases hm : g.mode <;>
        simp [drawFrame, panelWidgets, hcaps, ht, hm, List.filter_append,
          filter_statusRight_map_panel, titlebar_beq_statusRight, statusLeft_beq_statusRight]

/-- Witness for claim C9: both branches at the 80x24 scenario. -/
theorem c9_caps_lock_right_half_witness :
    capslock_status sampleGreeter = true ∧
    (drawFrame sampleGreeter sampleSurface "" errRenderers).widgets.filter
      (fun wdg => wdg.1 == Target.statusRight) =
      [(Target.statusRight, Widget.mk [status_label sampleGreeter.msg_status_caps]
        Alignment.right
        ((drawFrame sampleGreeter sampleSurface "" errRenderers).statusChunks.getD 2 Rect.zero))] ∧
    capslock_status { sampleGreeter with caps_lock := false } = false ∧
    (drawFrame { sampleGreeter with caps_lock := false } sampleSurface "" errRenderers).widgets.filter
      (fun wdg => wdg.1 == Target.statusRight) = [] :=
  ⟨rfl, (c9_caps_lock_right_half sampleGreeter sampleSurface "" errRenderers).2 rfl,
   rfl, (c9_caps_lock_right_half { sampleGreeter with caps_lock := false } sampleSurface ""
     errRenderers).1 rfl⟩

/-- Claim C10: every return of the Command-mode renderer is Ok — the single
exit of `command::draw` wraps the computed coordinate in `Ok`, so in Command
mode the router's error-to-"no cursor" mapping is never exercised by a
returned error and the collected cursor is always present. -/
theorem c10_command_draw_always_ok (g : Greeter) (size : Rect) (timeText : String)
    (others : Mode → Except RenderError (Nat × Nat)) :
    commandDraw g size = Except.ok (commandRender g size).cursorPos ∧
    (g.mode = Mode.command →
      (drawFrame g size timeText others).cursorLogical =
        some (commandRender g size).cursorPos) := by
  refine ⟨rfl, ?_⟩
  intro hm
  show routeCursor g size others = _
  simp [routeCursor, hm, commandDraw, Except.toOption]

/-- Witness for claim C10 at the Command-mode 80x24 scenario. -/
theorem c10_command_draw_always_ok_witness :
    sampleGreeter.mode = Mode.command ∧
    (drawFrame sampleGreeter sampleSurface "" errRenderers).cursorLogical =
      some (commandRender sampleGreeter sampleSurface).cursorPos :=
  ⟨rfl, (c10_command_draw_always_ok sampleGreeter sampleSurface "" errRenderers).2 rfl⟩

end Tuigreet

